import Mathlib

/-!
Shallow embedding of the windowed remote-list renderer of
`src/static/js/role_organisation.js` (the people-ranking script), together
with the role-consolidation page's chunked option-list renderer from the
same file.  Machine state is modelled explicitly; asynchronous fetches are
split into a start step (issuing an optional request) and settle steps
(success / failure), mirroring the promise callbacks in the source.
-/

namespace CamdramList

/-- The `ROW_HEIGHT` constant from the source. -/
def ROW_HEIGHT : Nat := 40

/-- The `VISIBLE_ROWS` constant from the source. -/
def VISIBLE_ROWS : Nat := 60

/-- The `PER_PAGE` constant from the source. -/
def PER_PAGE : Nat := 100

/-- One ranked person record, as consumed by `buildRow`.  Fields the source
reads with `|| 0` / `|| ""` coalescing are given those defaults. -/
structure Person where
  pid : Nat
  name : String := ""
  slug : String := ""
  count : Nat := 0
  numShows : Nat := 0
  numTitles : Nat := 0
  topRole : String := ""
  topRoleCount : Nat := 0
  creditDateRange : String := ""
deriving Repr, DecidableEq

/-- A network request as built by `fetchPage`: the page number, the search
string baked into the URL, and the `append` flag captured by the closure. -/
structure FetchReq where
  page : Nat
  search : String
  append : Bool
deriving Repr, DecidableEq

/-- A server response: `res.people` and the optional `res.total`
(`res.total !== undefined`). -/
structure FetchResp where
  people : List Person
  total : Option Nat
deriving Repr, DecidableEq

/-- The mutable state of the people-list script: `allLoaded`, `totalCount`,
`currentSearch`, the `fetchInFlight` single-flight flag, and the scroll
position of the scroll container. -/
structure ListState where
  allLoaded : List Person
  totalCount : Nat
  currentSearch : String
  fetchInFlight : Bool
  scrollTop : Int
deriving Repr, DecidableEq

/-- The synchronous part of `fetchPage(page, search, append)`: if a fetch is
in flight it returns a resolved promise and issues nothing; otherwise it sets
`fetchInFlight` and issues the request. -/
def fetchPageStart (page : Nat) (search : String) (append : Bool) (s : ListState) :
    ListState × Option FetchReq :=
  if s.fetchInFlight then (s, none)
  else ({ s with fetchInFlight := true }, some { page := page, search := search, append := append })

/-- The success continuation of `fetchPage`: `if (!append) allLoaded = []`,
concatenate `res.people`, take `res.total` when defined (else the loaded
length), and clear `fetchInFlight`. -/
def fetchPageSettleOk (req : FetchReq) (resp : FetchResp) (s : ListState) : ListState :=
  let base := if req.append then s.allLoaded else []
  let loaded := base ++ resp.people
  { s with
    allLoaded := loaded
    totalCount := resp.total.getD loaded.length
    fetchInFlight := false }

/-- The `.catch` continuation of `fetchPage`: only `fetchInFlight` is
cleared; the cache and the known total are untouched. -/
def fetchPageSettleFail (s : ListState) : ListState :=
  { s with fetchInFlight := false }

/-- The function `ensureDataForRange(start, end)` from the source. -/
def ensureDataForRange (start endIdx : Nat) (s : ListState) : ListState × Option FetchReq :=
  let needEnd := min (endIdx + 1) s.totalCount
  let loaded := s.allLoaded.length
  if needEnd ≤ loaded ∨ s.totalCount = 0 then (s, none)
  else fetchPageStart (loaded / PER_PAGE + 1) s.currentSearch true s

/-- The synchronous part of `reloadPeopleAndResetScroll`: it immediately
calls `fetchPage(1, currentSearch, false)`. -/
def reloadPeopleAndResetScroll (s : ListState) : ListState × Option FetchReq :=
  fetchPageStart 1 s.currentSearch false s

/-- The `.then` continuation of `reloadPeopleAndResetScroll`, run after the
page-1 fetch settles: `peopleScroll.scrollTop = 0`. -/
def reloadContinuation (s : ListState) : ListState :=
  { s with scrollTop := 0 }

/-- Lower-case a character list, mirroring JavaScript `toLowerCase()` on
the character level. -/
def lowerChars (l : List Char) : List Char :=
  l.map Char.toLower

/-- Strip leading and trailing whitespace from a character list, mirroring
JavaScript `trim()`. -/
def charsTrim (l : List Char) : List Char :=
  ((l.dropWhile Char.isWhitespace).reverse.dropWhile Char.isWhitespace).reverse

/-- JavaScript `value.trim()` on strings, via the character-list model. -/
def trimString (q : String) : String :=
  String.mk (charsTrim q.toList)

/-- The search-input debounce callback: assign `currentSearch` from the
trimmed input, then reload. -/
def applySearchChange (q : String) (s : ListState) : ListState × Option FetchReq :=
  reloadPeopleAndResetScroll { s with currentSearch := trimString q }

/-- Output of the window computation in `renderVirtual`. -/
structure WindowOut where
  visibleStart : Nat
  visibleEnd : Nat
  topHeight : Nat
  bottomHeight : Nat
deriving Repr, DecidableEq

/-- The window computation of `renderVirtual` (source lines 391-399):
`bodyScrollTop = max(0, scrollTop - theadHeight)`,
`visibleStart = max(0, floor(bodyScrollTop / ROW_HEIGHT))`,
`visibleEnd = min(totalCount, visibleStart + VISIBLE_ROWS)`, then the two
clamp statements, then the spacer heights.  `Nat` subtraction renders the
JavaScript `Math.max(0, a - b)` pattern. -/
def renderWindow (scrollTop theadHeight : Int) (totalCount : Nat) : WindowOut :=
  let bodyScrollTop : Int := max 0 (scrollTop - theadHeight)
  let visibleStart0 : Nat := bodyScrollTop.toNat / ROW_HEIGHT
  let visibleEnd0 : Nat := min totalCount (visibleStart0 + VISIBLE_ROWS)
  let visibleStart1 : Nat :=
    if totalCount ≤ visibleStart0 then totalCount - VISIBLE_ROWS else visibleStart0
  let visibleEnd1 : Nat :=
    if visibleEnd0 ≤ visibleStart1 then min totalCount (visibleStart1 + VISIBLE_ROWS)
    else visibleEnd0
  { visibleStart := visibleStart1
    visibleEnd := visibleEnd1
    topHeight := visibleStart1 * ROW_HEIGHT
    bottomHeight := (totalCount - visibleEnd1) * ROW_HEIGHT }

/-- The head of `renderVirtual`: nothing happens when `totalCount <= 0`;
otherwise the window is computed and `ensureDataForRange` is invoked on it. -/
def renderVirtualStep (theadHeight : Int) (s : ListState) :
    Option WindowOut × (ListState × Option FetchReq) :=
  if s.totalCount = 0 then (none, (s, none))
  else
    let w := renderWindow s.scrollTop theadHeight s.totalCount
    (some w, ensureDataForRange w.visibleStart w.visibleEnd s)

/-- The row-replacement continuation of `renderVirtual` (after
`ensureDataForRange` resolves): computes
`rowCount = min(visibleEnd - visibleStart, allLoaded.length - visibleStart)`
as a JavaScript number (may be negative, hence `Int`), keeps the current
rows on the two early-return paths, and otherwise rebuilds the rows
`allLoaded[i]` for `visibleStart <= i < min(visibleEnd, allLoaded.length)`. -/
def renderVirtualRows (visibleStart visibleEnd : Nat) (rangeUnchanged : Bool)
    (s : ListState) (currentRows : List Person) : List Person :=
  let rowCount : Int :=
    min ((visibleEnd : Int) - (visibleStart : Int))
      ((s.allLoaded.length : Int) - (visibleStart : Int))
  if rowCount ≤ 0 ∧ 0 < s.totalCount then currentRows
  else if rangeUnchanged = true ∧ 0 < rowCount ∧ (currentRows.length : Int) = rowCount then
    currentRows
  else (s.allLoaded.drop visibleStart).take (min visibleEnd s.allLoaded.length - visibleStart)

/-- What `window.CAMDRAM_renderSimple` leaves in the DOM: all loaded rows,
the top spacer forced to height 0 and hidden, the bottom spacer removed, and
the scroll-inner height set to `theadHeight + n * ROW_HEIGHT`. -/
structure SimpleRenderOut where
  rows : List Person
  topSpacerHeight : Nat
  bottomSpacerRemoved : Bool
  scrollInnerHeight : Nat
deriving Repr, DecidableEq

/-- The function `window.CAMDRAM_renderSimple` from the source. -/
def renderSimple (theadHeight : Nat) (s : ListState) : SimpleRenderOut :=
  { rows := s.allLoaded
    topSpacerHeight := 0
    bottomSpacerRemoved := true
    scrollInnerHeight := theadHeight + s.allLoaded.length * ROW_HEIGHT }

/-- The function `maybeLoadMoreSimple` from the source; the near-bottom geometry test on
the scroll container is passed in as a boolean. -/
def maybeLoadMoreSimple (nearBottom : Bool) (s : ListState) : ListState × Option FetchReq :=
  if s.fetchInFlight then (s, none)
  else if s.totalCount ≤ s.allLoaded.length then (s, none)
  else if nearBottom = false then (s, none)
  else fetchPageStart (s.allLoaded.length / PER_PAGE + 1) s.currentSearch true s

/-- Run a list of `ensureDataForRange` calls in order with no settlement in
between, returning the final state and the number of network requests
issued. -/
def ensureCalls : List (Nat × Nat) → ListState → ListState × Nat
  | [], s => (s, 0)
  | (a, b) :: rest, s =>
    let r := ensureDataForRange a b s
    let k := ensureCalls rest r.1
    (k.1, (if r.2.isSome then 1 else 0) + k.2)

/-- Does `needle` occur as a prefix of `hay`?  Character-list version of the
start of a JavaScript `indexOf` scan. -/
def isPrefixChars : List Char → List Char → Bool
  | [], _ => true
  | _ :: _, [] => false
  | a :: as, b :: bs => a == b && isPrefixChars as bs

/-- Does `needle` occur as a contiguous substring of `hay`?  This is
`hay.indexOf(needle) >= 0` in JavaScript. -/
def containsSub (needle hay : List Char) : Bool :=
  match hay with
  | [] => needle.isEmpty
  | _ :: t => isPrefixChars needle hay || containsSub needle t

/-- Modelled from the spec: the remote query endpoint (an external
collaborator, not part of the repository) returns people whose name matches
the `search` parameter; a record "matches" a query when the query is empty
or occurs in the name, case-insensitively. -/
def nameMatchesQuery (p : Person) (q : String) : Bool :=
  q.isEmpty || containsSub (lowerChars q.toList) (lowerChars p.name.toList)

end CamdramList

namespace CamdramRoleOrg

/-- The `SOURCE_RENDER_CHUNK` constant from the role-consolidation script. -/
def SOURCE_RENDER_CHUNK : Nat := 220

/-- One selectable role option (`available_roles` entry). -/
structure RoleOption where
  name : String
  count : Option Nat := none
deriving Repr, DecidableEq

/-- The function `roleMatchesQuery(role, q)` from the role-consolidation script:
`!q || role.name.toLowerCase().indexOf(q) >= 0`, where `q` is already
trimmed and lower-cased by the caller. -/
def roleMatchesQuery (role : RoleOption) (q : List Char) : Bool :=
  q.isEmpty || CamdramList.containsSub q (CamdramList.lowerChars role.name.toList)

/-- State shared by all chunking jobs: the current `renderToken` and the
children of the source list element. -/
structure OrgState where
  renderToken : Nat
  listItems : List RoleOption
deriving Repr, DecidableEq

/-- A cooperative chunking job: the token captured when `renderSourceList`
started it, the filtered options it walks, and the next start index. -/
structure ChunkJob where
  token : Nat
  filtered : List RoleOption
  startIdx : Nat
deriving Repr, DecidableEq

/-- One `appendChunk(startIdx)` invocation: re-check the captured token
against the current `renderToken`, abort silently on mismatch, otherwise
append the next batch of at most `SOURCE_RENDER_CHUNK` items and schedule a
continuation when items remain. -/
def appendChunk (job : ChunkJob) (s : OrgState) : OrgState × Option ChunkJob :=
  if job.token ≠ s.renderToken then (s, none)
  else
    let endIdx := min job.filtered.length (job.startIdx + SOURCE_RENDER_CHUNK)
    let s' := { s with
      listItems := s.listItems ++ (job.filtered.drop job.startIdx).take (endIdx - job.startIdx) }
    if endIdx < job.filtered.length then (s', some { job with startIdx := endIdx })
    else (s', none)

/-- Run a chain of `appendChunk` continuations for up to `n` animation
frames. -/
def runChunks : Nat → Option ChunkJob → OrgState → OrgState
  | _, none, s => s
  | 0, some _, s => s
  | n + 1, some job, s =>
    let r := appendChunk job s
    runChunks n r.2 r.1

/-- The function `renderSourceList()` from the source: filter the options by the trimmed
lower-cased query, bump `renderToken` and capture it, empty the list, and
start `appendChunk(0)`. -/
def renderSourceListStart (roleOptions : List RoleOption) (query : String) (s : OrgState) :
    OrgState × ChunkJob :=
  let q := CamdramList.lowerChars (CamdramList.charsTrim query.toList)
  let filtered := roleOptions.filter (fun r => roleMatchesQuery r q)
  let token := s.renderToken + 1
  ({ renderToken := token, listItems := [] },
   { token := token, filtered := filtered, startIdx := 0 })

end CamdramRoleOrg

namespace CamdramList

/-- A call made while a request is outstanding has no effect and issues no
request. -/
theorem ensure_inflight (a b : Nat) (s : ListState) (h : s.fetchInFlight = true) :
    ensureDataForRange a b s = (s, none) := by
  simp [ensureDataForRange, fetchPageStart, h]

/-- Every `ensureDataForRange` call either leaves the state unchanged and
issues nothing, or issues a request and leaves the flight flag set. -/
theorem ensure_none_or_flight (a b : Nat) (s : ListState) :
    ensureDataForRange a b s = (s, none) ∨
      ((ensureDataForRange a b s).1.fetchInFlight = true ∧
        (ensureDataForRange a b s).2.isSome = true) := by
  by_cases hc : min (b + 1) s.totalCount ≤ s.allLoaded.length ∨ s.totalCount = 0
  · left
    unfold ensureDataForRange
    rw [if_pos hc]
  · by_cases hf : s.fetchInFlight = true
    · left
      exact ensure_inflight a b s hf
    · right
      unfold ensureDataForRange fetchPageStart
      rw [if_neg hc, if_neg hf]
      exact ⟨rfl, rfl⟩

/-- With the flight flag set, a burst of `ensureDataForRange` calls does
nothing. -/
theorem ensureCalls_inflight (calls : List (Nat × Nat)) (s : ListState)
    (h : s.fetchInFlight = true) : ensureCalls calls s = (s, 0) := by
  induction calls with
  | nil => rfl
  | cons hd tl ih =>
    obtain ⟨a, b⟩ := hd
    simp [ensureCalls, ensure_inflight a b s h, ih]

/-- Claim C2: for every sequence of `ensureDataForRange` calls with no fetch
settlement between them, at most one network request is issued; and a call
made while a request is outstanding issues no second request and resolves
without network effect. -/
theorem claim_C2_single_flight (calls : List (Nat × Nat)) (s : ListState) :
    (ensureCalls calls s).2 ≤ 1 ∧
      (∀ a b, s.fetchInFlight = true → ensureDataForRange a b s = (s, none)) := by
  constructor
  · induction calls generalizing s with
    | nil => simp [ensureCalls]
    | cons hd tl ih =>
      obtain ⟨a, b⟩ := hd
      rcases ensure_none_or_flight a b s with h | ⟨h1, h2⟩
      · simpa [ensureCalls, h] using ih s
      · have hrest := ensureCalls_inflight tl (ensureDataForRange a b s).1 h1
        simp [ensureCalls, h2, hrest]
  · intro a b h
    exact ensure_inflight a b s h

/-- Witness for C2 at a concrete burst of three calls on a concrete state. -/
theorem claim_C2_witness :
    (ensureCalls [(0, 59), (60, 119), (120, 179)]
        { allLoaded := [], totalCount := 500, currentSearch := "",
          fetchInFlight := false, scrollTop := 0 }).2 ≤ 1 ∧
      ensureDataForRange 0 59
          { allLoaded := [], totalCount := 500, currentSearch := "",
            fetchInFlight := true, scrollTop := 0 } =
        ({ allLoaded := [], totalCount := 500, currentSearch := "",
           fetchInFlight := true, scrollTop := 0 }, none) :=
  ⟨(claim_C2_single_flight [(0, 59), (60, 119), (120, 179)]
      { allLoaded := [], totalCount := 500, currentSearch := "",
        fetchInFlight := false, scrollTop := 0 }).1,
   (claim_C2_single_flight []
      { allLoaded := [], totalCount := 500, currentSearch := "",
        fetchInFlight := true, scrollTop := 0 }).2 0 59 rfl⟩

/-- Claim C7: `ensureDataForRange(start, end)` computes
`neededEnd = min(end + 1, total)`; whenever `neededEnd <= length` of the
loaded prefix, or `total = 0`, it resolves immediately with no network
effect; otherwise (and when no request is outstanding) the page it requests
is `floor(length / pageSize) + 1`. -/
theorem claim_C7_ensure_range (s : ListState) (a b : Nat) :
    ((min (b + 1) s.totalCount ≤ s.allLoaded.length ∨ s.totalCount = 0) →
        ensureDataForRange a b s = (s, none)) ∧
      (¬ (min (b + 1) s.totalCount ≤ s.allLoaded.length ∨ s.totalCount = 0) →
        s.fetchInFlight = false →
        ensureDataForRange a b s =
          ({ s with fetchInFlight := true },
            some { page := s.allLoaded.length / PER_PAGE + 1,
                   search := s.currentSearch, append := true })) := by
  constructor
  · intro h
    unfold ensureDataForRange
    rw [if_pos h]
  · intro h hf
    unfold ensureDataForRange fetchPageStart
    rw [if_neg h, if_neg (by rw [hf]; exact Bool.false_ne_true)]

/-- Witness for C7: an already-covered range resolves with no request, and
an uncovered range on page-1 data requests page 2. -/
theorem claim_C7_witness :
    ensureDataForRange 0 59
        { allLoaded := List.replicate 100 { pid := 1, name := "alice" },
          totalCount := 250, currentSearch := "", fetchInFlight := false, scrollTop := 0 } =
      ({ allLoaded := List.replicate 100 { pid := 1, name := "alice" },
         totalCount := 250, currentSearch := "", fetchInFlight := false, scrollTop := 0 }, none) ∧
      ensureDataForRange 120 180
          { allLoaded := List.replicate 100 { pid := 1, name := "alice" },
            totalCount := 250, currentSearch := "", fetchInFlight := false, scrollTop := 0 } =
        ({ allLoaded := List.replicate 100 { pid := 1, name := "alice" },
           totalCount := 250, currentSearch := "", fetchInFlight := true, scrollTop := 0 },
         some { page := 2, search := "", append := true }) :=
  ⟨(claim_C7_ensure_range _ 0 59).1 (by simp),
   (claim_C7_ensure_range _ 120 180).2 (by simp) rfl⟩

/-- State for the C5 counterexample: page 1 (100 of 250 records) loaded,
with the page-2 fetch in flight. -/
def c5Mal : ListState :=
  { allLoaded := List.replicate 100 { pid := 1, name := "alice" },
    totalCount := 250, currentSearch := "", fetchInFlight := true, scrollTop := 0 }

/-- Counterexample to claim C5: a malformed response that still parses as
JSON — body `\x7b\x7d`, i.e. `res.people` and `res.total` both undefined —
takes the success path, where `res.total !== undefined ? res.total :
allLoaded.length` replaces the known total 250 by the loaded length 100,
and the previously unmet demand for rows 120-180 then resolves with no
retry: the malformed response is treated exactly as "no more data". -/
theorem claim_C5_counterexample :
    c5Mal.totalCount = 250 ∧
      ¬ (min (180 + 1) c5Mal.totalCount ≤ c5Mal.allLoaded.length ∨ c5Mal.totalCount = 0) ∧
      (fetchPageSettleOk { page := 2, search := "", append := true }
          { people := [], total := none } c5Mal).totalCount = 100 ∧
      ensureDataForRange 120 180
          (fetchPageSettleOk { page := 2, search := "", append := true }
            { people := [], total := none } c5Mal) =
        (fetchPageSettleOk { page := 2, search := "", append := true }
          { people := [], total := none } c5Mal, none) := by
  refine ⟨rfl, ?_, rfl, rfl⟩
  simp [c5Mal]

/-- Claim C5 (amended): on a request failure that rejects the fetch promise
(network error or unparseable body, the `.catch` path), the loaded-prefix
cache is left unchanged, the known total is not reduced, the flight flag
clears, and the next `ensureDataForRange` call under unmet demand requests
the same page `floor(length / pageSize) + 1` again; but a malformed
response that parses as JSON takes the success path, where a missing
`total` field is replaced by the loaded-prefix length, reducing the known
total (and so suppressing further demand) when the true total was larger. -/
theorem claim_C5_failure_retry (s : ListState) (a b : Nat) (req : FetchReq)
    (resp : FetchResp)
    (hdemand : ¬ (min (b + 1) s.totalCount ≤ s.allLoaded.length ∨ s.totalCount = 0))
    (happ : req.append = true) (hmal : resp.total = none) :
    (fetchPageSettleFail s).allLoaded = s.allLoaded ∧
      (fetchPageSettleFail s).totalCount = s.totalCount ∧
      (fetchPageSettleFail s).currentSearch = s.currentSearch ∧
      (fetchPageSettleFail s).fetchInFlight = false ∧
      ensureDataForRange a b (fetchPageSettleFail s) =
        ({ s with fetchInFlight := true },
          some { page := s.allLoaded.length / PER_PAGE + 1,
                 search := s.currentSearch, append := true }) ∧
      (fetchPageSettleOk req resp s).totalCount =
        s.allLoaded.length + resp.people.length := by
  refine ⟨rfl, rfl, rfl, rfl, ?_, ?_⟩
  · unfold fetchPageSettleFail ensureDataForRange fetchPageStart
    rw [if_neg hdemand, if_neg Bool.false_ne_true]
  · simp [fetchPageSettleOk, happ, hmal]

/-- Witness for C5 (amended): a rejected page-2 fetch on page-1 data leaves
the cache at 100 records and the retry requests page 2 again, while a
parsed response with no `total` field resets the known total to the loaded
length. -/
theorem claim_C5_witness :
    (fetchPageSettleFail c5Mal).allLoaded =
        List.replicate 100 { pid := 1, name := "alice" } ∧
      ensureDataForRange 120 180 (fetchPageSettleFail c5Mal) =
        ({ allLoaded := List.replicate 100 { pid := 1, name := "alice" },
           totalCount := 250, currentSearch := "", fetchInFlight := true, scrollTop := 0 },
         some { page := 2, search := "", append := true }) ∧
      (fetchPageSettleOk { page := 2, search := "", append := true }
          { people := [], total := none } c5Mal).totalCount =
        (List.replicate 100 { pid := 1, name := "alice" } : List Person).length +
          ([] : List Person).length :=
  ⟨(claim_C5_failure_retry c5Mal 120 180 { page := 2, search := "", append := true }
      { people := [], total := none } (by simp [c5Mal]) rfl rfl).1,
   (claim_C5_failure_retry c5Mal 120 180 { page := 2, search := "", append := true }
      { people := [], total := none } (by simp [c5Mal]) rfl rfl).2.2.2.2.1,
   (claim_C5_failure_retry c5Mal 120 180 { page := 2, search := "", append := true }
      { people := [], total := none } (by simp [c5Mal]) rfl rfl).2.2.2.2.2⟩

/-- Claim C3: for every `total > 0` and every scroll offset (including
offsets past the logical end), the window computation yields
`visibleEnd > visibleStart` and `visibleEnd - visibleStart <= VISIBLE_ROWS`;
it never produces an empty visible range. -/
theorem claim_C3_window_clamp (scrollTop theadHeight : Int) (total : Nat)
    (h : 0 < total) :
    (renderWindow scrollTop theadHeight total).visibleStart
        < (renderWindow scrollTop theadHeight total).visibleEnd ∧
      (renderWindow scrollTop theadHeight total).visibleEnd
          - (renderWindow scrollTop theadHeight total).visibleStart ≤ VISIBLE_ROWS := by
  simp only [renderWindow, VISIBLE_ROWS, ROW_HEIGHT]
  split_ifs <;> constructor <;> omega

/-- Witness for C3 at `total = 1` and a scroll offset far past the end. -/
theorem claim_C3_witness :
    (renderWindow 100000 0 1).visibleStart < (renderWindow 100000 0 1).visibleEnd ∧
      (renderWindow 100000 0 1).visibleEnd - (renderWindow 100000 0 1).visibleStart
        ≤ VISIBLE_ROWS :=
  claim_C3_window_clamp 100000 0 1 (by decide)

/-- Claim C10: in virtual mode, if after a window recomputation the loaded
prefix covers none of the visible range (computed `rowCount <= 0`) while
`total > 0`, the currently displayed rows are left in place; and the
renderer never replaces a non-empty rendered row set with an empty one. -/
theorem claim_C10_keep_rows (vs ve : Nat) (ru : Bool) (s : ListState)
    (cur : List Person) (htot : 0 < s.totalCount) :
    (min ((ve : Int) - (vs : Int)) ((s.allLoaded.length : Int) - (vs : Int)) ≤ 0 →
        renderVirtualRows vs ve ru s cur = cur) ∧
      (cur ≠ [] → renderVirtualRows vs ve ru s cur ≠ []) := by
  constructor
  · intro hrc
    simp only [renderVirtualRows]
    split_ifs with h1 h2
    · rfl
    · rfl
    · exact absurd ⟨hrc, htot⟩ h1
  · intro hcur
    simp only [renderVirtualRows]
    split_ifs with h1 h2
    · exact hcur
    · exact hcur
    · have hrc : ¬ (min ((ve : Int) - (vs : Int))
          ((s.allLoaded.length : Int) - (vs : Int)) ≤ 0) := by
        intro hle
        exact h1 ⟨hle, htot⟩
      have hvs_ve : vs < ve := by omega
      have hvs_len : vs < s.allLoaded.length := by omega
      intro hnil
      have hlen := congrArg List.length hnil
      simp only [List.length_take, List.length_drop, List.length_nil] at hlen
      omega

/-- Witness for C10 on a one-record list with an uncovered window. -/
theorem claim_C10_witness :
    renderVirtualRows 0 0 false
        { allLoaded := [{ pid := 1, name := "alice" }], totalCount := 1,
          currentSearch := "", fetchInFlight := false, scrollTop := 0 }
        [{ pid := 1, name := "alice" }] =
      [{ pid := 1, name := "alice" }] ∧
      renderVirtualRows 0 0 false
          { allLoaded := [{ pid := 1, name := "alice" }], totalCount := 1,
            currentSearch := "", fetchInFlight := false, scrollTop := 0 }
          [{ pid := 1, name := "alice" }] ≠
        [] :=
  ⟨(claim_C10_keep_rows 0 0 false
      { allLoaded := [{ pid := 1, name := "alice" }], totalCount := 1,
        currentSearch := "", fetchInFlight := false, scrollTop := 0 }
      [{ pid := 1, name := "alice" }] (by decide)).1 (by decide),
   (claim_C10_keep_rows 0 0 false
      { allLoaded := [{ pid := 1, name := "alice" }], totalCount := 1,
        currentSearch := "", fetchInFlight := false, scrollTop := 0 }
      [{ pid := 1, name := "alice" }] (by decide)).2 (by decide)⟩

end CamdramList

namespace CamdramRoleOrg

/-- A chunking job whose captured token no longer matches the current
render token appends nothing and schedules no continuation. -/
theorem appendChunk_stale (job : ChunkJob) (s : OrgState)
    (h : job.token ≠ s.renderToken) : appendChunk job s = (s, none) := by
  unfold appendChunk
  rw [if_pos h]

/-- A whole chain of animation-frame continuations of a stale job leaves
the state untouched. -/
theorem runChunks_stale (n : Nat) (job : ChunkJob) (s : OrgState)
    (h : job.token ≠ s.renderToken) : runChunks n (some job) s = s := by
  cases n with
  | zero => rfl
  | succ m => simp [runChunks, appendChunk_stale job s h]

/-- Claim C9: each chunking job captures the render-epoch token at start
and re-checks it against the current token before appending each batch; on
mismatch it stops without appending anything, so a job captured before a
new `renderSourceList` run never adds a batch after the new render has
begun. -/
theorem claim_C9_epoch_guard (job : ChunkJob) (s : OrgState) (n : Nat)
    (opts : List RoleOption) (q : String) :
    (job.token ≠ s.renderToken →
        appendChunk job s = (s, none) ∧ runChunks n (some job) s = s) ∧
      (job.token ≤ s.renderToken →
        runChunks n (some job) (renderSourceListStart opts q s).1 =
          (renderSourceListStart opts q s).1) := by
  constructor
  · intro h
    exact ⟨appendChunk_stale job s h, runChunks_stale n job s h⟩
  · intro h
    apply runChunks_stale
    simp only [renderSourceListStart]
    omega

/-- Witness for C9: a job with token 1 against current token 2 appends
nothing, and the same job is inert after a fresh `renderSourceList`. -/
theorem claim_C9_witness :
    (appendChunk { token := 1, filtered := [{ name := "Director" }], startIdx := 0 }
          { renderToken := 2, listItems := [] } =
        ({ renderToken := 2, listItems := [] }, none) ∧
      runChunks 5 (some { token := 1, filtered := [{ name := "Director" }], startIdx := 0 })
          { renderToken := 2, listItems := [] } =
        { renderToken := 2, listItems := [] }) ∧
      runChunks 5 (some { token := 1, filtered := [{ name := "Director" }], startIdx := 0 })
          (renderSourceListStart [] "" { renderToken := 2, listItems := [] }).1 =
        (renderSourceListStart [] "" { renderToken := 2, listItems := [] }).1 :=
  ⟨(claim_C9_epoch_guard { token := 1, filtered := [{ name := "Director" }], startIdx := 0 }
      { renderToken := 2, listItems := [] } 5 [] "").1 (by decide),
   (claim_C9_epoch_guard { token := 1, filtered := [{ name := "Director" }], startIdx := 0 }
      { renderToken := 2, listItems := [] } 5 [] "").2 (by decide)⟩

end CamdramRoleOrg

namespace CamdramList

/-- Claim C8: with a known total of 0 the simple renderer shows no rows and
both spacer heights are zero (top forced to 0, bottom removed), the simple
load-more path issues no fetch, the virtual render path returns before
computing any window or issuing any fetch, and `ensureDataForRange`
resolves with no request. -/
theorem claim_C8_empty_state (s : ListState) (th : Nat) (thi : Int) (nb : Bool)
    (a b : Nat) (h0 : s.totalCount = 0) (hl : s.allLoaded = []) :
    renderSimple th s =
        { rows := [], topSpacerHeight := 0, bottomSpacerRemoved := true,
          scrollInnerHeight := th } ∧
      maybeLoadMoreSimple nb s = (s, none) ∧
      renderVirtualStep thi s = (none, (s, none)) ∧
      ensureDataForRange a b s = (s, none) := by
  refine ⟨?_, ?_, ?_, ?_⟩
  · simp [renderSimple, hl]
  · unfold maybeLoadMoreSimple
    split_ifs with h1 h2 h3
    · rfl
    · rfl
    · rfl
    · exact absurd (by omega) h2
  · unfold renderVirtualStep
    rw [if_pos h0]
  · unfold ensureDataForRange
    rw [if_pos (Or.inr h0)]

/-- Witness for C8 on the empty state. -/
theorem claim_C8_witness :
    renderSimple 31
        { allLoaded := [], totalCount := 0, currentSearch := "",
          fetchInFlight := false, scrollTop := 0 } =
        { rows := [], topSpacerHeight := 0, bottomSpacerRemoved := true,
          scrollInnerHeight := 31 } ∧
      maybeLoadMoreSimple true
          { allLoaded := [], totalCount := 0, currentSearch := "",
            fetchInFlight := false, scrollTop := 0 } =
        ({ allLoaded := [], totalCount := 0, currentSearch := "",
           fetchInFlight := false, scrollTop := 0 }, none) ∧
      renderVirtualStep 31
          { allLoaded := [], totalCount := 0, currentSearch := "",
            fetchInFlight := false, scrollTop := 0 } =
        (none, ({ allLoaded := [], totalCount := 0, currentSearch := "",
                  fetchInFlight := false, scrollTop := 0 }, none)) ∧
      ensureDataForRange 0 59
          { allLoaded := [], totalCount := 0, currentSearch := "",
            fetchInFlight := false, scrollTop := 0 } =
        ({ allLoaded := [], totalCount := 0, currentSearch := "",
           fetchInFlight := false, scrollTop := 0 }, none) :=
  claim_C8_empty_state
    { allLoaded := [], totalCount := 0, currentSearch := "",
      fetchInFlight := false, scrollTop := 0 } 31 31 true 0 59 rfl rfl

/-- Concrete state for the C4 counterexample: one record loaded for the
previous query, no fetch in flight, scrolled partway down, just after the
search has changed to `"bob"`. -/
def c4State : ListState :=
  { allLoaded := [{ pid := 1, name := "alice" }], totalCount := 1,
    currentSearch := "bob", fetchInFlight := false, scrollTop := 7 }

/-- Counterexample to claim C4: on a query change the fetch for the new
query is issued while the loaded-prefix cache is still non-empty and the
scroll offset is still non-zero — neither the clear nor the scroll reset
precedes the fetch. -/
theorem claim_C4_counterexample :
    (reloadPeopleAndResetScroll c4State).2.isSome = true ∧
      (reloadPeopleAndResetScroll c4State).1.allLoaded ≠ [] ∧
      (reloadPeopleAndResetScroll c4State).1.scrollTop ≠ 0 := by
  decide

/-- Claim C4 (amended): on a query change a page-1 `append = false` fetch
for the new query is issued immediately (when none is outstanding) with the
cache not yet cleared; the cache is replaced wholesale only when that fetch
settles successfully; the scroll reset runs in the settlement continuation;
and if a fetch is already outstanding at the transition, no request is
issued and no clear ever occurs for that transition. -/
theorem claim_C4_reload_behaviour (s t : ListState) (req : FetchReq) (resp : FetchResp) :
    (s.fetchInFlight = false →
        reloadPeopleAndResetScroll s =
          ({ s with fetchInFlight := true },
            some { page := 1, search := s.currentSearch, append := false })) ∧
      (req.append = false →
        (fetchPageSettleOk req resp t).allLoaded = resp.people) ∧
      (reloadContinuation t).scrollTop = 0 ∧
      (t.fetchInFlight = true → reloadPeopleAndResetScroll t = (t, none)) := by
  refine ⟨?_, ?_, rfl, ?_⟩
  · intro hf
    unfold reloadPeopleAndResetScroll fetchPageStart
    rw [if_neg (by rw [hf]; exact Bool.false_ne_true)]
  · intro ha
    unfold fetchPageSettleOk
    rw [ha]
    simp
  · intro hf
    unfold reloadPeopleAndResetScroll fetchPageStart
    rw [if_pos hf]

/-- Witness for C4 (amended) at concrete states. -/
theorem claim_C4_witness :
    reloadPeopleAndResetScroll
        { allLoaded := [{ pid := 1, name := "alice" }], totalCount := 1,
          currentSearch := "bob", fetchInFlight := false, scrollTop := 7 } =
      ({ allLoaded := [{ pid := 1, name := "alice" }], totalCount := 1,
         currentSearch := "bob", fetchInFlight := true, scrollTop := 7 },
       some { page := 1, search := "bob", append := false }) ∧
      (fetchPageSettleOk { page := 1, search := "bob", append := false }
          { people := [{ pid := 2, name := "bob" }], total := some 1 }
          { allLoaded := [{ pid := 1, name := "alice" }], totalCount := 1,
            currentSearch := "bob", fetchInFlight := true, scrollTop := 7 }).allLoaded =
        [{ pid := 2, name := "bob" }] ∧
      (reloadContinuation
          { allLoaded := [{ pid := 2, name := "bob" }], totalCount := 1,
            currentSearch := "bob", fetchInFlight := false, scrollTop := 7 }).scrollTop = 0 ∧
      reloadPeopleAndResetScroll
          { allLoaded := [{ pid := 1, name := "alice" }], totalCount := 1,
            currentSearch := "bob", fetchInFlight := true, scrollTop := 7 } =
        ({ allLoaded := [{ pid := 1, name := "alice" }], totalCount := 1,
           currentSearch := "bob", fetchInFlight := true, scrollTop := 7 }, none) :=
  ⟨(claim_C4_reload_behaviour
      { allLoaded := [{ pid := 1, name := "alice" }], totalCount := 1,
        currentSearch := "bob", fetchInFlight := false, scrollTop := 7 }
      { allLoaded := [{ pid := 1, name := "alice" }], totalCount := 1,
        currentSearch := "bob", fetchInFlight := true, scrollTop := 7 }
      { page := 1, search := "bob", append := false }
      { people := [{ pid := 2, name := "bob" }], total := some 1 }).1 rfl,
   (claim_C4_reload_behaviour
      { allLoaded := [{ pid := 1, name := "alice" }], totalCount := 1,
        currentSearch := "bob", fetchInFlight := false, scrollTop := 7 }
      { allLoaded := [{ pid := 1, name := "alice" }], totalCount := 1,
        currentSearch := "bob", fetchInFlight := true, scrollTop := 7 }
      { page := 1, search := "bob", append := false }
      { people := [{ pid := 2, name := "bob" }], total := some 1 }).2.1 rfl,
   (claim_C4_reload_behaviour
      { allLoaded := [{ pid := 1, name := "alice" }], totalCount := 1,
        currentSearch := "bob", fetchInFlight := false, scrollTop := 7 }
      { allLoaded := [{ pid := 2, name := "bob" }], totalCount := 1,
        currentSearch := "bob", fetchInFlight := false, scrollTop := 7 }
      { page := 1, search := "bob", append := false }
      { people := [{ pid := 2, name := "bob" }], total := some 1 }).2.2.1,
   (claim_C4_reload_behaviour
      { allLoaded := [{ pid := 1, name := "alice" }], totalCount := 1,
        currentSearch := "bob", fetchInFlight := false, scrollTop := 7 }
      { allLoaded := [{ pid := 1, name := "alice" }], totalCount := 1,
        currentSearch := "bob", fetchInFlight := true, scrollTop := 7 }
      { page := 1, search := "bob", append := false }
      { people := [{ pid := 2, name := "bob" }], total := some 1 }).2.2.2 rfl⟩

/-- Trace step 0 for the C1 scenario: page 1 of the old (empty-search) query is loaded. -/
def c1s0 : ListState :=
  { allLoaded := List.replicate 100 { pid := 1, name := "alice" },
    totalCount := 150, currentSearch := "", fetchInFlight := false, scrollTop := 0 }

/-- Trace step 1 for the C1 scenario: scrolling demands rows 100-149, so a page-2 fetch for
the old query goes in flight. -/
def c1Ensure : ListState × Option FetchReq := ensureDataForRange 100 149 c1s0

/-- Trace step 2 for the C1 scenario: the user types `"bob"`; the debounce applies the new
search and calls `reloadPeopleAndResetScroll`. -/
def c1Reload : ListState × Option FetchReq := applySearchChange "bob" c1Ensure.1

/-- Trace step 3 for the C1 scenario: the stale page-2 response of the old query settles. -/
def c1Final : ListState :=
  fetchPageSettleOk { page := 2, search := "", append := true }
    { people := [{ pid := 2, name := "amy" }], total := some 150 } c1Reload.1

/-- Counterexample to claim C1: the old query's page-2 fetch is in flight
when the search changes to `"bob"`; the reload for the new query issues no
request (single-flight guard), and when the stale fetch settles its
response is appended, not discarded — the cache under the new query is
mutated and holds a record that does not match `"bob"`. -/
theorem claim_C1_counterexample :
    c1Ensure.2 = some { page := 2, search := "", append := true } ∧
      c1Reload.2 = none ∧
      c1Final.currentSearch = "bob" ∧
      c1Final.allLoaded ≠ c1Reload.1.allLoaded ∧
      { pid := 2, name := "amy" } ∈ c1Final.allLoaded ∧
      nameMatchesQuery { pid := 2, name := "amy" } "bob" = false := by
  refine ⟨rfl, rfl, by decide, ?_, ?_, by decide⟩
  · intro h
    have h1 : c1Final.allLoaded.length = 101 := rfl
    have h2 : c1Reload.1.allLoaded.length = 100 := rfl
    rw [h, h2] at h1
    exact absurd h1 (by decide)
  · have h3 : c1Final.allLoaded =
        List.replicate 100 { pid := 1, name := "alice" } ++ [{ pid := 2, name := "amy" }] :=
      rfl
    rw [h3]
    simp

/-- Claim C1 (amended): people fetches carry no epoch token — if the query
changes while a fetch for the previous query is in flight, the reload for
the new query is suppressed by the single-flight guard (no request, no
cache change), and when the stale fetch settles, its appending response is
concatenated onto the loaded cache rather than discarded, so records from
the old query can appear after the change. -/
theorem claim_C1_stale_append (s : ListState) (q : String) (req : FetchReq)
    (resp : FetchResp) (hin : s.fetchInFlight = true) (happ : req.append = true) :
    applySearchChange q s = ({ s with currentSearch := trimString q }, none) ∧
      (fetchPageSettleOk req resp { s with currentSearch := trimString q }).allLoaded =
        s.allLoaded ++ resp.people := by
  constructor
  · unfold applySearchChange reloadPeopleAndResetScroll fetchPageStart
    have h' : ({ s with currentSearch := trimString q } : ListState).fetchInFlight = true := hin
    rw [if_pos h']
  · unfold fetchPageSettleOk
    rw [happ]
    simp

/-- Witness for C1 (amended) at the concrete trace states. -/
theorem claim_C1_witness :
    applySearchChange "bob" c1Ensure.1 =
        ({ c1Ensure.1 with currentSearch := trimString "bob" }, none) ∧
      (fetchPageSettleOk { page := 2, search := "", append := true }
          { people := [{ pid := 2, name := "amy" }], total := some 150 }
          { c1Ensure.1 with currentSearch := trimString "bob" }).allLoaded =
        c1Ensure.1.allLoaded ++ [{ pid := 2, name := "amy" }] :=
  claim_C1_stale_append c1Ensure.1 "bob" { page := 2, search := "", append := true }
    { people := [{ pid := 2, name := "amy" }], total := some 150 } rfl rfl

/-- State for C6: pages 1 and 2 loaded (200 records) of a 250-record total. -/
def c6Loaded200 : ListState :=
  { allLoaded := List.replicate 200 { pid := 1, name := "alice" },
    totalCount := 250, currentSearch := "", fetchInFlight := false, scrollTop := 4800 }

/-- State for C6: only page 1 loaded (100 records) of a 250-record total, with
the viewport scrolled to row 120. -/
def c6Page1 : ListState :=
  { allLoaded := List.replicate 100 { pid := 1, name := "alice" },
    totalCount := 250, currentSearch := "", fetchInFlight := false, scrollTop := 4800 }

set_option maxRecDepth 4096 in
/-- Counterexample to claim C6: (a) the stated unconditional `visibleStart`
formula fails past the end of the list, where the clamp takes over
(`total = 10`, `scrollOffset = 4000`, `headerHeight = 0` gives
`visibleStart = 0`, not `floor(4000 / 40) = 100`); (b) with pages 1 and 2
loaded (200 of 250 records), covering the visible range 120-180 demands
nothing further — page 3 is never fetched for that range. -/
theorem claim_C6_counterexample :
    ((renderWindow 4000 0 10).visibleStart = 0 ∧
        Int.toNat (max 0 ((4000 : Int) - 0)) / ROW_HEIGHT = 100) ∧
      ensureDataForRange 120 180 c6Loaded200 = (c6Loaded200, none) :=
  ⟨⟨rfl, rfl⟩, rfl⟩

set_option maxRecDepth 4096 in
/-- Claim C6 (amended): whenever the raw row index
`floor(max(0, scrollOffset - headerHeight) / rowHeight)` lies below `total`
(so the end-of-list clamp does not apply), the window computation returns
exactly `visibleStart` equal to that index,
`visibleEnd = min(total, visibleStart + VISIBLE_ROWS)`,
`topHeight = visibleStart * ROW_HEIGHT` and
`bottomHeight = (total - visibleEnd) * ROW_HEIGHT`; in particular for
`total = 250` and a scroll offset at row 120 it yields `visibleStart = 120`
and `visibleEnd = 180`, and covering that range with only page 1 loaded
fetches page 2, after which the demand is satisfied and no page-3 request
follows. -/
theorem claim_C6_window_formula (scrollTop theadHeight : Int) (total : Nat)
    (h : (max 0 (scrollTop - theadHeight)).toNat / ROW_HEIGHT < total) :
    renderWindow scrollTop theadHeight total =
        { visibleStart := (max 0 (scrollTop - theadHeight)).toNat / ROW_HEIGHT,
          visibleEnd :=
            min total ((max 0 (scrollTop - theadHeight)).toNat / ROW_HEIGHT + VISIBLE_ROWS),
          topHeight := (max 0 (scrollTop - theadHeight)).toNat / ROW_HEIGHT * ROW_HEIGHT,
          bottomHeight :=
            (total -
              min total ((max 0 (scrollTop - theadHeight)).toNat / ROW_HEIGHT + VISIBLE_ROWS)) *
              ROW_HEIGHT } ∧
      renderWindow 4800 0 250 =
        { visibleStart := 120, visibleEnd := 180, topHeight := 4800, bottomHeight := 2800 } ∧
      (ensureDataForRange 120 180 c6Page1).2 = some { page := 2, search := "", append := true } ∧
      ensureDataForRange 120 180
          (fetchPageSettleOk { page := 2, search := "", append := true }
            { people := List.replicate 100 { pid := 3, name := "carol" }, total := some 250 }
            (ensureDataForRange 120 180 c6Page1).1) =
        (fetchPageSettleOk { page := 2, search := "", append := true }
          { people := List.replicate 100 { pid := 3, name := "carol" }, total := some 250 }
          (ensureDataForRange 120 180 c6Page1).1, none) := by
  refine ⟨?_, rfl, rfl, rfl⟩
  have hV : (0 : Nat) < VISIBLE_ROWS := by decide
  have h1 : ¬ (total ≤ (max 0 (scrollTop - theadHeight)).toNat / ROW_HEIGHT) := by omega
  have h2 : ¬ (min total ((max 0 (scrollTop - theadHeight)).toNat / ROW_HEIGHT + VISIBLE_ROWS) ≤
      (max 0 (scrollTop - theadHeight)).toNat / ROW_HEIGHT) := by omega
  simp only [renderWindow, if_neg h1, if_neg h2]

/-- Witness for C6 (amended) at the scenario's inputs. -/
theorem claim_C6_witness :
    renderWindow 4800 0 250 =
      { visibleStart := (max 0 ((4800 : Int) - 0)).toNat / ROW_HEIGHT,
        visibleEnd := min 250 ((max 0 ((4800 : Int) - 0)).toNat / ROW_HEIGHT + VISIBLE_ROWS),
        topHeight := (max 0 ((4800 : Int) - 0)).toNat / ROW_HEIGHT * ROW_HEIGHT,
        bottomHeight :=
          (250 - min 250 ((max 0 ((4800 : Int) - 0)).toNat / ROW_HEIGHT + VISIBLE_ROWS)) *
            ROW_HEIGHT } :=
  (claim_C6_window_formula 4800 0 250 (by decide)).1

end CamdramList

